import Mathlib

/-!
Verification of the `hello.py` MPI hello-world script.

The script reads three values from the ambient MPI context
(`comm.Get_size()`, `comm.Get_rank()`, `MPI.Get_processor_name()`)
and executes

  print("Hello, World! I am process %d of %d on %s.\n" % (rank, size, name))

We embed the script as a pure function from the ambient context values to a
trace of observable effects, model Python percent-formatting over the fixed
template, and model the external launcher and context initialization from the
specification (they are not part of the repository's source).
-/

/-- The ambient MPI execution context as seen by one process: the values
`comm.Get_size()`, `comm.Get_rank()` and `MPI.Get_processor_name()` return. -/
structure MPIEnv where
  world_size : Int
  self_rank : Int
  host_name : String
  deriving DecidableEq, Repr

/-- One segment of a Python percent-format template: a literal chunk, a `%d`
conversion or a `%s` conversion. -/
inductive Seg where
  | lit (t : String)
  | d
  | strS
  deriving DecidableEq, Repr

/-- One argument supplied to Python percent-formatting: an int or a string. -/
inductive FmtArg where
  | i (n : Int)
  | s (t : String)
  deriving DecidableEq, Repr

/-- Python `%` formatting over a parsed template: `%d` requires an int
argument and renders it in decimal, `%s` requires a string argument and
embeds it verbatim; an argument-count or argument-type mismatch raises a
`TypeError`, modelled as `none`. -/
def applyFmt : List Seg → List FmtArg → Option String
  | [], [] => some ""
  | Seg.lit t :: rest, args => (applyFmt rest args).map (fun r => t ++ r)
  | Seg.d :: rest, FmtArg.i n :: args => (applyFmt rest args).map (fun r => toString n ++ r)
  | Seg.strS :: rest, FmtArg.s t :: args => (applyFmt rest args).map (fun r => t ++ r)
  | _, _ => none

/-- The parsed form of the source's format string
`"Hello, World! I am process %d of %d on %s.\n"`. -/
def helloFmt : List Seg :=
  [Seg.lit "Hello, World! I am process ", Seg.d, Seg.lit " of ", Seg.d,
   Seg.lit " on ", Seg.strS, Seg.lit ".\n"]

/-- Python `print` writes its argument followed by its own line terminator. -/
def pyPrintOut (s : String) : String := s ++ "\n"

/-- Observable effects a run of the script could perform.  The script itself
only queries the MPI context and writes to standard output; the other
constructors stand for effects the frame claims rule out. -/
inductive Effect where
  | getSize (result : Int)
  | getRank (result : Int)
  | getProcessorName (result : String)
  | writeStdout (s : String)
  | readFile (path : String)
  | writeFile (path : String) (content : String)
  | readEnvVar (nm : String)
  | readArgv
  | networkIO
  deriving DecidableEq, Repr

/-- The effect trace of `hello.py` run in context `env`: query size, rank and
processor name in source order, then `print` the percent-formatted greeting
(if formatting raised, nothing would be written). -/
def hello (env : MPIEnv) : List Effect :=
  let size := env.world_size
  let rank := env.self_rank
  let name := env.host_name
  [Effect.getSize size, Effect.getRank rank, Effect.getProcessorName name] ++
    (match applyFmt helloFmt [FmtArg.i rank, FmtArg.i size, FmtArg.s name] with
     | some s => [Effect.writeStdout (pyPrintOut s)]
     | none => [])

/-- Everything a trace writes to standard output, in order. -/
def stdoutOf (tr : List Effect) : String :=
  tr.foldl (fun acc e =>
    match e with
    | Effect.writeStdout s => acc ++ s
    | _ => acc) ""

/-- Whether an effect is a write to standard output. -/
def isStdoutWrite : Effect → Bool
  | Effect.writeStdout _ => true
  | _ => false

/-- Whether an effect is one of the three MPI context queries or a write to
standard output (the only effects the script performs). -/
def isQueryOrStdout : Effect → Bool
  | Effect.getSize _ => true
  | Effect.getRank _ => true
  | Effect.getProcessorName _ => true
  | Effect.writeStdout _ => true
  | _ => false

/-- Modelled from the spec: the external launcher (not part of this
repository) starts `N` cooperating processes; process `r` (for `r` in
`0..N-1`) sees `world_size = N`, `self_rank = r` and its own host name. -/
def launch (N : Nat) (hostOf : Nat → String) : List MPIEnv :=
  (List.range N).map (fun (r : Nat) => ⟨(N : Int), Int.ofNat r, hostOf r⟩)

/-- The observable outcome of one whole process run: its exit status and its
standard output. -/
structure RunOutcome where
  exitCode : Nat
  stdout : String
  deriving DecidableEq, Repr

/-- Modelled from the spec: context initialization happens inside the
external MPI runtime, not in this repository's source.  If it succeeds the
script runs to completion and the interpreter exits with status 0; if it
fails the process terminates with the runtime's (implementation-defined)
exit status and nothing has been printed. -/
def runProgram (init : Except Nat MPIEnv) : RunOutcome :=
  match init with
  | Except.ok env => { exitCode := 0, stdout := stdoutOf (hello env) }
  | Except.error c => { exitCode := c, stdout := "" }

/-- Whether an effect is the `Get_size` query. -/
def isGetSize : Effect → Bool
  | Effect.getSize _ => true
  | _ => false

/-- Whether an effect is the `Get_rank` query. -/
def isGetRank : Effect → Bool
  | Effect.getRank _ => true
  | _ => false

/-- Whether an effect is the `Get_processor_name` query. -/
def isGetName : Effect → Bool
  | Effect.getProcessorName _ => true
  | _ => false

theorem hello_trace (env : MPIEnv) :
    hello env =
      [Effect.getSize env.world_size, Effect.getRank env.self_rank,
       Effect.getProcessorName env.host_name,
       Effect.writeStdout ("Hello, World! I am process " ++ toString env.self_rank ++
         " of " ++ toString env.world_size ++ " on " ++ env.host_name ++ ".\n\n")] := by
  simp [hello, applyFmt, helloFmt, pyPrintOut, String.append_assoc]

theorem stdout_hello (env : MPIEnv) :
    stdoutOf (hello env) =
      "Hello, World! I am process " ++ toString env.self_rank ++ " of " ++
        toString env.world_size ++ " on " ++ env.host_name ++ ".\n\n" := by
  rw [hello_trace]
  simp [stdoutOf, String.empty_append]

theorem countP_stdout_hello (env : MPIEnv) :
    (hello env).countP isStdoutWrite = 1 := by
  rw [hello_trace]
  simp [List.countP, List.countP.go, isStdoutWrite]

/-- Claim C1 (counterexample): the standard output is not the greeting line
followed by a single newline — launched with rank 0, size 1, host `node0`,
the output carries an extra newline beyond that. -/
theorem c1_counterexample :
    ¬ (stdoutOf (hello ⟨1, 0, "node0"⟩) =
        "Hello, World! I am process 0 of 1 on node0." ++ "\n") := by
  decide

/-- Claim C1 (amended): for every run the program performs exactly one write
to standard output, whose content is `Hello, World! I am process R of S on H.`
followed by TWO newline characters — the `\n` embedded in the format string
plus the terminator `print` appends. -/
theorem c1_output (env : MPIEnv) :
    stdoutOf (hello env) =
      "Hello, World! I am process " ++ toString env.self_rank ++ " of " ++
        toString env.world_size ++ " on " ++ env.host_name ++ "." ++ "\n" ++ "\n" ∧
    (hello env).countP isStdoutWrite = 1 := by
  refine ⟨?_, countP_stdout_hello env⟩
  rw [stdout_hello]
  simp [String.append_assoc]

/-- Claim C2 (counterexample): with world_size 1, rank 0 and host `h`, the
entire standard output is not exactly the single line
`Hello, World! I am process 0 of 1 on h.` (with its line terminator). -/
theorem c2_counterexample :
    ¬ (stdoutOf (hello ⟨1, 0, "h"⟩) = "Hello, World! I am process 0 of 1 on h.\n") := by
  decide

/-- Claim C2 (amended): launched with N=1 (so rank 0), the entire standard
output is the line `Hello, World! I am process 0 of 1 on <hostname>.`
followed by an extra (empty) line. -/
theorem c2_n1_output (name : String) :
    stdoutOf (hello ⟨1, 0, name⟩) =
      "Hello, World! I am process 0 of 1 on " ++ name ++ ".\n" ++ "\n" := by
  rw [stdout_hello]
  simp only [String.append_assoc]
  rfl

/-- Claim C3: in every valid launch, whenever `world_size > 0` the values
obtained at startup satisfy `0 ≤ self_rank < world_size`. -/
theorem c3_rank_bounds (N : Nat) (hostOf : Nat → String) (env : MPIEnv)
    (hmem : env ∈ launch N hostOf) (hpos : 0 < env.world_size) :
    0 ≤ env.self_rank ∧ env.self_rank < env.world_size := by
  simp only [launch, List.mem_map, List.mem_range] at hmem
  obtain ⟨r, hr, rfl⟩ := hmem
  refine ⟨Int.ofNat_nonneg r, ?_⟩
  show Int.ofNat r < Int.ofNat N
  exact Int.ofNat_lt.mpr hr

/-- Claim C3 witness at the concrete launch of two processes. -/
theorem c3_witness :
    0 ≤ (⟨2, 1, "h"⟩ : MPIEnv).self_rank ∧
      (⟨2, 1, "h"⟩ : MPIEnv).self_rank < (⟨2, 1, "h"⟩ : MPIEnv).world_size :=
  c3_rank_bounds 2 (fun _ => "h") ⟨2, 1, "h"⟩ (by decide) (by decide)

/-- Claim C4: a valid launch of N ≥ 1 processes yields exactly N process
contexts, the printed ranks are exactly 0..N-1 with no duplicates, every
context reports the same world_size N, and the processes together perform
exactly N writes to standard output. -/
theorem c4_launch_lines (N : Nat) (hostOf : Nat → String) (hN : 1 ≤ N) :
    (launch N hostOf).length = N ∧
    ((launch N hostOf).map MPIEnv.self_rank) = (List.range N).map Int.ofNat ∧
    ((launch N hostOf).map MPIEnv.self_rank).Nodup ∧
    (∀ env ∈ launch N hostOf, env.world_size = (N : Int)) ∧
    ((launch N hostOf).map (fun env => (hello env).countP isStdoutWrite)).sum = N := by
  have hmap : (launch N hostOf).map MPIEnv.self_rank = (List.range N).map Int.ofNat := by
    simp [launch, List.map_map]
  refine ⟨by simp [launch], hmap, ?_, ?_, ?_⟩
  · rw [hmap]
    exact (List.nodup_range N).map (fun a b h => Int.ofNat.inj h)
  · intro env hmem
    obtain ⟨r, hr, he⟩ := List.mem_map.mp hmem
    subst he
    rfl
  · have hsum : ∀ l : List MPIEnv,
        (l.map (fun env => (hello env).countP isStdoutWrite)).sum = l.length := by
      intro l
      induction l with
      | nil => rfl
      | cons a t ih =>
        rw [List.map_cons, List.sum_cons, countP_stdout_hello, ih, List.length_cons]
        omega
    rw [hsum]
    simp [launch]

/-- Claim C4 witness at the concrete launch of four processes. -/
theorem c4_witness :
    (launch 4 (fun _ => "h")).length = 4 ∧
    ((launch 4 (fun _ => "h")).map MPIEnv.self_rank) = (List.range 4).map Int.ofNat ∧
    ((launch 4 (fun _ => "h")).map MPIEnv.self_rank).Nodup ∧
    (∀ env ∈ launch 4 (fun _ => "h"), env.world_size = (4 : Int)) ∧
    ((launch 4 (fun _ => "h")).map (fun env => (hello env).countP isStdoutWrite)).sum = 4 :=
  c4_launch_lines 4 (fun _ => "h") (by decide)

/-- Claim C5: a run whose context initialization succeeds exits with status 0;
a run whose context initialization fails — the runtime reports some nonzero
status — exits with that nonzero status and prints no greeting at all. -/
theorem c5_exit_status (env : MPIEnv) (c : Nat) (hc : c ≠ 0) :
    (runProgram (Except.ok env)).exitCode = 0 ∧
    (runProgram (Except.error c)).exitCode ≠ 0 ∧
    (runProgram (Except.error c)).stdout = "" :=
  ⟨rfl, hc, rfl⟩

/-- Claim C5 witness at a concrete successful run and a concrete failed one. -/
theorem c5_witness :
    (runProgram (Except.ok ⟨1, 0, "h"⟩)).exitCode = 0 ∧
    (runProgram (Except.error 1)).exitCode ≠ 0 ∧
    (runProgram (Except.error 1)).stdout = "" :=
  c5_exit_status ⟨1, 0, "h"⟩ 1 (by decide)

/-- Claim C6: every effect of a run is an MPI context query or a write to
standard output — no file reads or writes, no environment-variable reads, no
command-line reads, no network traffic — and the only thing written to
standard output is the single greeting. -/
theorem c6_frame (env : MPIEnv) :
    (hello env).all isQueryOrStdout = true ∧
    (hello env).countP (fun e => match e with
      | Effect.readFile _ => true
      | Effect.writeFile _ _ => true
      | Effect.readEnvVar _ => true
      | Effect.readArgv => true
      | Effect.networkIO => true
      | _ => false) = 0 ∧
    stdoutOf (hello env) =
      "Hello, World! I am process " ++ toString env.self_rank ++ " of " ++
        toString env.world_size ++ " on " ++ env.host_name ++ ".\n\n" :=
  ⟨rfl, rfl, stdout_hello env⟩

/-- Claim C7: the program is deterministic in the queried triple — two runs
that obtain the same rank, size and host name write identical standard
output. -/
theorem c7_deterministic (e1 e2 : MPIEnv)
    (hrank : e1.self_rank = e2.self_rank)
    (hsize : e1.world_size = e2.world_size)
    (hname : e1.host_name = e2.host_name) :
    stdoutOf (hello e1) = stdoutOf (hello e2) := by
  rw [stdout_hello, stdout_hello, hrank, hsize, hname]

/-- Claim C7 witness at a concrete pair of runs with equal triples. -/
theorem c7_witness :
    stdoutOf (hello ⟨2, 1, "a"⟩) = stdoutOf (hello ⟨2, 1, "a"⟩) :=
  c7_deterministic ⟨2, 1, "a"⟩ ⟨2, 1, "a"⟩ rfl rfl rfl

/-- Claim C8: each of the three context queries happens exactly once in the
trace, and the single write to standard output embeds exactly the values
those queries returned. -/
theorem c8_single_fetch (env : MPIEnv) :
    (hello env).countP isGetSize = 1 ∧
    (hello env).countP isGetRank = 1 ∧
    (hello env).countP isGetName = 1 ∧
    Effect.getSize env.world_size ∈ hello env ∧
    Effect.getRank env.self_rank ∈ hello env ∧
    Effect.getProcessorName env.host_name ∈ hello env ∧
    Effect.writeStdout ("Hello, World! I am process " ++ toString env.self_rank ++
      " of " ++ toString env.world_size ++ " on " ++ env.host_name ++ ".\n\n") ∈
      hello env := by
  rw [hello_trace]
  refine ⟨rfl, rfl, rfl, ?_, ?_, ?_, ?_⟩ <;> simp

/-- Claim C9: the text written to standard output ends with two consecutive
newline characters — the format string's own `\n` and the terminator `print`
appends — so the greeting line is followed by an empty line. -/
theorem c9_double_newline (env : MPIEnv) :
    ∃ t : String, stdoutOf (hello env) = t ++ "\n" ++ "\n" := by
  refine ⟨"Hello, World! I am process " ++ toString env.self_rank ++ " of " ++
      toString env.world_size ++ " on " ++ env.host_name ++ ".", ?_⟩
  rw [stdout_hello]
  simp only [String.append_assoc]
  rfl

/-- Claim C10: percent-formatting the fixed template is total — for every
integer rank (negative included), every integer size and every host-name
string (empty included) it succeeds, rendering rank and size in decimal and
embedding the host name verbatim. -/
theorem c10_format_total (rank : Int) (size : Int) (name : String) :
    applyFmt helloFmt [FmtArg.i rank, FmtArg.i size, FmtArg.s name] =
      some ("Hello, World! I am process " ++ toString rank ++ " of " ++
        toString size ++ " on " ++ name ++ ".\n") ∧
    ∃ pre post : String,
      applyFmt helloFmt [FmtArg.i rank, FmtArg.i size, FmtArg.s name] =
        some (pre ++ name ++ post) := by
  constructor
  · simp [applyFmt, helloFmt, String.append_assoc, String.append_empty]
  · refine ⟨"Hello, World! I am process " ++ toString rank ++ " of " ++
      toString size ++ " on ", ".\n", ?_⟩
    simp [applyFmt, helloFmt, String.append_assoc, String.append_empty]
